import Mathlib

/-!
Shallow embedding of the IMU orientation estimator (`src/src/IMU.cpp`): a
quaternion-state extended Kalman filter fed by gyroscope, accelerometer and
magnetometer sample streams.  `qreal` arithmetic is idealized as real-number
arithmetic; `quint64` timestamps are naturals reduced mod `2^64`.  Sensor
discovery, logging and the Qt property layer are outside the model; the
`rotationChanged` signal is modelled as a `Bool` result of each step.
-/

noncomputable section

open Matrix

/-- Machine epsilon of the working float: `qreal` is `double`, so
`EPSILON = DBL_EPSILON = 2^-52` (IMU.cpp line 35). -/
def EPSILON : ℝ := 1 / 2 ^ 52

/-- Reduction of a natural number into the `quint64` range. -/
def u64 (t : ℕ) : ℕ := t % 2 ^ 64

/-- `quint64` subtraction `a - b` with wraparound (faithful for `b < 2^64`),
as performed by `timestamp - lastGyroTimestamp` on unsigned 64-bit values. -/
def u64sub (a b : ℕ) : ℕ := (a + 2 ^ 64 - b) % 2 ^ 64

/-- Euclidean length of a 3-vector (`QVector3D::length`). -/
def vec3norm (v : Fin 3 → ℝ) : ℝ := Real.sqrt (v 0 ^ 2 + v 1 ^ 2 + v 2 ^ 2)

/-- `qDegreesToRadians`. -/
def degToRad (x : ℝ) : ℝ := x * Real.pi / 180

/-- Componentwise dot product of two quaternion 4-vectors. -/
def quatDot (a b : Fin 4 → ℝ) : ℝ := a 0 * b 0 + a 1 * b 1 + a 2 * b 2 + a 3 * b 3

/-- Euclidean norm of a quaternion 4-vector, as computed in `normalizeQuat`. -/
def quatN (q : Fin 4 → ℝ) : ℝ := Real.sqrt (q 0 ^ 2 + q 1 ^ 2 + q 2 ^ 2 + q 3 ^ 2)

/-- `IMU::normalizeQuat` (IMU.cpp 343-359): divide by the norm when it exceeds
`EPSILON`, otherwise reset every component to 1. -/
def normalizeQuat (q : Fin 4 → ℝ) : Fin 4 → ℝ :=
  if EPSILON < quatN q then fun i => q i / quatN q else fun _ => 1

/-- `IMU::shortestPathQuat` (IMU.cpp 361-378): negate `q` when its dot product
with `p` is negative, then copy the result into the history slot.  Returns
(new history, new quaternion). -/
def shortestPathQuat (p q : Fin 4 → ℝ) : (Fin 4 → ℝ) × (Fin 4 → ℝ) :=
  let q' := if quatDot q p < 0 then fun i => -q i else q
  (q', q')

/-- C library `atan2`. -/
def atan2 (y x : ℝ) : ℝ :=
  if 0 < x then Real.arctan (y / x)
  else if x < 0 then
    if 0 ≤ y then Real.arctan (y / x) + Real.pi else Real.arctan (y / x) - Real.pi
  else if 0 < y then Real.pi / 2
  else if y < 0 then -(Real.pi / 2)
  else 0

/-- Process-noise base `Q`: diagonal `1e-4` (IMU.cpp 96-100). -/
def Qmat : Matrix (Fin 4) (Fin 4) ℝ := Matrix.diagonal fun _ => 1e-4

/-- Constructor constant `R_g_startup` (IMU.cpp 53). -/
def R_g_startup : ℝ := 1e-1

/-- Constructor constant `R_y_startup` (IMU.cpp 54). -/
def R_y_startup : ℝ := 1e-3

/-- Constructor constant `R_g_k_0` (IMU.cpp 55). -/
def R_g_k_0 : ℝ := 1

/-- Constructor constant `R_g_k_w` (IMU.cpp 56). -/
def R_g_k_w : ℝ := 7.5

/-- Constructor constant `R_g_k_g` (IMU.cpp 57). -/
def R_g_k_g : ℝ := 10

/-- Constructor constant `R_y_k_0` (IMU.cpp 58). -/
def R_y_k_0 : ℝ := 10

/-- Constructor constant `R_y_k_w` (IMU.cpp 59). -/
def R_y_k_w : ℝ := 7.5

/-- Constructor constant `R_y_k_g` (IMU.cpp 60). -/
def R_y_k_g : ℝ := 10

/-- Constructor constant `R_y_k_n` (IMU.cpp 61). -/
def R_y_k_n : ℝ := 20

/-- Constructor constant `R_y_k_d` (IMU.cpp 62). -/
def R_y_k_d : ℝ := 15

/-- Constructor constant `m_mean_alpha` (IMU.cpp 66). -/
def m_mean_alpha : ℝ := 0.99

/-- State of the estimator: the data members of class `IMU` together with the
matrices of its `ExtendedKalmanFilter` member `filter`. -/
structure IMUState where
  gyroId : String
  accId : String
  magId : String
  lastGyroTimestamp : ℕ
  lastAccTimestamp : ℕ
  lastMagTimestamp : ℕ
  gyroSilentCycles : ℕ
  accSilentCycles : ℕ
  magSilentCycles : ℕ
  startupTime : ℝ
  wDeltaT : ℝ
  w : Fin 3 → ℝ
  w_norm : ℝ
  a : Fin 3 → ℝ
  a_norm : ℝ
  m : Fin 3 → ℝ
  m_norm : ℝ
  magDataReady : Bool
  m_norm_mean : ℝ
  m_dip_angle_mean : ℝ
  process : Fin 4 → ℝ
  statePre : Fin 4 → ℝ
  statePost : Fin 4 → ℝ
  statePreHistory : Fin 4 → ℝ
  statePostHistory : Fin 4 → ℝ
  errorCovPre : Matrix (Fin 4) (Fin 4) ℝ
  errorCovPost : Matrix (Fin 4) (Fin 4) ℝ
  transitionMatrix : Matrix (Fin 4) (Fin 4) ℝ
  processNoiseCov : Matrix (Fin 4) (Fin 4) ℝ
  observation : Fin 6 → ℝ
  predictedObservation : Fin 6 → ℝ
  observationMatrix : Matrix (Fin 6) (Fin 4) ℝ
  observationNoiseCov : Matrix (Fin 6) (Fin 6) ℝ
  rotAxis : Fin 3 → ℝ
  rotAngle : ℝ

/-- State built by the `IMU` constructor (IMU.cpp 37-102), with the identifiers
of the sensors that were opened as parameters.  Modelled from the spec: the
class declaration (`IMU.h`) and the `ExtendedKalmanFilter` constructor are not
under `src/`, so the members the `IMU.cpp` constructor does not assign take the
values the spec states or implies — rotation output starts at zero (spec section 8:
"If gyro never fires, rotation_axis is (0,0,0) and rotation_angle is 0"),
the filter transition matrix starts as the identity (spec section 4.3: diagonal
entries 1, kept by the commented-out diagonal writes of `calculateProcess`),
`QVector3D` members start at zero, and the remaining filter matrices start at
zero. -/
def initIMU (gid aid mid : String) : IMUState where
  gyroId := gid
  accId := aid
  magId := mid
  lastGyroTimestamp := 0
  lastAccTimestamp := 0
  lastMagTimestamp := 0
  gyroSilentCycles := 0
  accSilentCycles := 0
  magSilentCycles := 0
  startupTime := 1
  wDeltaT := 0
  w := ![0, 0, 0]
  w_norm := 0
  a := ![0, 0, 0]
  a_norm := 0
  m := ![0, 0, 0]
  m_norm := 0
  magDataReady := false
  m_norm_mean := -1
  m_dip_angle_mean := -1
  process := ![1, 0, 0, 0]
  statePre := ![1, 0, 0, 0]
  statePost := ![1, 0, 0, 0]
  statePreHistory := ![1, 0, 0, 0]
  statePostHistory := ![1, 0, 0, 0]
  errorCovPre := Qmat
  errorCovPost := 0
  transitionMatrix := 1
  processNoiseCov := 0
  observation := ![0, 0, 9.81, 0, 1, 0]
  predictedObservation := ![0, 0, 9.81, 0, 1, 0]
  observationMatrix := 0
  observationNoiseCov := 0
  rotAxis := ![0, 0, 0]
  rotAngle := 0

/-- `IMU::calculateProcess` (IMU.cpp 380-413): process vector (normalized),
transition matrix (off-diagonal writes only; the diagonal entries are left as
they are) and process-noise covariance `Q * wDeltaT`. -/
def calculateProcess (s : IMUState) : IMUState :=
  let q0 := s.statePost 0
  let q1 := s.statePost 1
  let q2 := s.statePost 2
  let q3 := s.statePost 3
  let wx := s.w 0
  let wy := s.w 1
  let wz := s.w 2
  let c := 0.5 * s.wDeltaT
  { s with
    process := normalizeQuat
      ![q0 + c * (-q1 * wx - q2 * wy - q3 * wz),
        q1 + c * (q0 * wx - q3 * wy + q2 * wz),
        q2 + c * (q3 * wx + q0 * wy - q1 * wz),
        q3 + c * (-q2 * wx + q1 * wy + q0 * wz)],
    transitionMatrix :=
      !![s.transitionMatrix 0 0, -c * wx, -c * wy, -c * wz;
         c * wx, s.transitionMatrix 1 1, c * wz, -c * wy;
         c * wy, -c * wz, s.transitionMatrix 2 2, c * wx;
         c * wz, c * wy, -c * wx, s.transitionMatrix 3 3],
    processNoiseCov := Matrix.of fun i j => Qmat i j * s.wDeltaT }

/-- Modelled from the spec: `ExtendedKalmanFilter::predict` is not under
`src/`; per spec section 4.2, `x_prior <- f`, `P_prior <- F P_post Ft + Q_k`, and
`x_post` is left unchanged. -/
def predictStep (s : IMUState) : IMUState :=
  { s with
    statePre := s.process,
    errorCovPre :=
      s.transitionMatrix * s.errorCovPost * s.transitionMatrixᵀ + s.processNoiseCov }

/-- Modelled from the spec: `ExtendedKalmanFilter::correct` is not under
`src/`; per spec section 4.2, `S <- H P_prior Ht + R_k`, `K <- P_prior Ht S⁻¹`,
`x_post <- x_prior + K (z - h)`, `P_post <- (I - K H) P_prior`. -/
def correctStep (s : IMUState) : IMUState :=
  let S := s.observationMatrix * s.errorCovPre * s.observationMatrixᵀ + s.observationNoiseCov
  let K := s.errorCovPre * s.observationMatrixᵀ * S⁻¹
  { s with
    statePost := fun i =>
      s.statePre i + K.mulVec (fun j => s.observation j - s.predictedObservation j) i,
    errorCovPost := (1 - K * s.observationMatrix) * s.errorCovPre }

/-- `IMU::calculateObservation` (IMU.cpp 415-536): observation vector,
predicted observation, observation matrix, adaptive observation noise, running
magnetic means; finally clears `magDataReady`.  The `isnan` coercion of the
dip angle is modelled by its real-arithmetic trigger: division by a zero norm
or an `acos` argument outside `[-1, 1]`. -/
def calculateObservation (s : IMUState) : IMUState :=
  let q0 := s.statePre 0
  let q1 := s.statePre 1
  let q2 := s.statePre 2
  let q3 := s.statePre 3
  let g : ℝ := 9.81
  let Rz0 := 2 * (q1 * q3 - q0 * q2)
  let Rz1 := 2 * (q2 * q3 + q0 * q1)
  let Rz2 := q0 * q0 - q1 * q1 - q2 * q2 + q3 * q3
  let R_g := R_g_k_0 + R_g_k_w * s.w_norm + R_g_k_g * |g - s.a_norm|
  let dot_m_z := s.m 0 * Rz0 + s.m 1 * Rz1 + s.m 2 * Rz2
  let m_dip_angle :=
    if s.m_norm = 0 ∨ 1 < |dot_m_z / s.m_norm| then 0 else Real.arccos (dot_m_z / s.m_norm)
  let m_norm_mean' :=
    if s.m_norm_mean < 0 then s.m_norm
    else m_mean_alpha * s.m_norm_mean + (1 - m_mean_alpha) * s.m_norm
  let m_dip_angle_mean' :=
    if s.m_dip_angle_mean < 0 then m_dip_angle
    else m_mean_alpha * s.m_dip_angle_mean + (1 - m_mean_alpha) * m_dip_angle
  let mh : Fin 3 → ℝ := fun i => s.m i - dot_m_z * ![Rz0, Rz1, Rz2] i
  let uy_norm := Real.sqrt (mh 0 * mh 0 + mh 1 * mh 1 + mh 2 * mh 2)
  let mhn : Fin 3 → ℝ := if EPSILON < uy_norm then fun i => mh i / uy_norm else mh
  let R_y :=
    if s.magDataReady then
      R_y_k_0 + R_y_k_w * s.w_norm + R_y_k_g * |g - s.a_norm| +
        R_y_k_n * |s.m_norm - m_norm_mean'| + R_y_k_d * |m_dip_angle - m_dip_angle_mean'|
    else 1
  { s with
    m_norm_mean := if s.magDataReady then m_norm_mean' else s.m_norm_mean,
    m_dip_angle_mean := if s.magDataReady then m_dip_angle_mean' else s.m_dip_angle_mean,
    observation :=
      ![s.a 0, s.a 1, s.a 2,
        if s.magDataReady then mhn 0 else 0,
        if s.magDataReady then mhn 1 else 0,
        if s.magDataReady then mhn 2 else 0],
    predictedObservation :=
      ![Rz0 * g, Rz1 * g, Rz2 * g,
        if s.magDataReady then 2 * (q1 * q2 + q0 * q3) else 0,
        if s.magDataReady then q0 * q0 - q1 * q1 + q2 * q2 - q3 * q3 else 0,
        if s.magDataReady then 2 * (q2 * q3 - q0 * q1) else 0],
    observationMatrix :=
      !![-2 * g * q2, 2 * g * q3, -2 * g * q0, 2 * g * q1;
         2 * g * q1, 2 * g * q0, 2 * g * q3, 2 * g * q2;
         2 * g * q0, -2 * g * q1, -2 * g * q2, 2 * g * q3;
         (if s.magDataReady then 2 * q3 else 0), (if s.magDataReady then 2 * q2 else 0),
           (if s.magDataReady then 2 * q1 else 0), (if s.magDataReady then 2 * q0 else 0);
         (if s.magDataReady then 2 * q0 else 0), (if s.magDataReady then -2 * q1 else 0),
           (if s.magDataReady then 2 * q2 else 0), (if s.magDataReady then -2 * q3 else 0);
         (if s.magDataReady then -2 * q1 else 0), (if s.magDataReady then -2 * q0 else 0),
           (if s.magDataReady then 2 * q3 else 0), (if s.magDataReady then 2 * q2 else 0)],
    observationNoiseCov := Matrix.of fun i j =>
      if i = j then
        if 0 < s.startupTime then (if (i : ℕ) < 3 then R_g_startup else R_y_startup)
        else (if (i : ℕ) < 3 then R_g else R_y)
      else s.observationNoiseCov i j,
    magDataReady := false }

/-- Sensor-health bookkeeping at the top of `IMU::calculateOutputRotation`
(IMU.cpp 540-563): each open stream's silent-cycle counter is incremented. -/
def bumpSilentCycles (s : IMUState) : IMUState :=
  { s with
    gyroSilentCycles := s.gyroSilentCycles + 1,
    accSilentCycles := if s.accId = "" then s.accSilentCycles else s.accSilentCycles + 1,
    magSilentCycles := if s.magId = "" then s.magSilentCycles else s.magSilentCycles + 1 }

/-- The rotation angle in radians that `calculateOutputRotation` derives from
the posterior quaternion (IMU.cpp 571-572):
`2 * atan2(sqrt(q1^2 + q2^2 + q3^2), q0)`. -/
def outputTheta (q : Fin 4 → ℝ) : ℝ :=
  2 * atan2 (Real.sqrt (q 1 ^ 2 + q 2 ^ 2 + q 3 ^ 2)) (q 0)

/-- `IMU::calculateOutputRotation` (IMU.cpp 538-588).  The `Bool` result
records whether the `rotationChanged` signal was emitted. -/
def calculateOutputRotation (s : IMUState) : IMUState × Bool :=
  if s.gyroId = "" then (s, false)
  else
    let s1 := bumpSilentCycles s
    if 0 < s1.startupTime then (s1, false)
    else
      let q := s1.statePost
      let theta := outputTheta q
      if theta < EPSILON then
        ({ s1 with rotAxis := ![0, 0, 0], rotAngle := 0 }, true)
      else
        ({ s1 with
            rotAxis := ![q 1 * Real.sin (theta / 2), q 2 * Real.sin (theta / 2),
              q 3 * Real.sin (theta / 2)],
            rotAngle := theta * 180 / Real.pi }, true)

/-- Acceptance condition of the gyro handler: not the first sample, and the
converted time step is positive. -/
def gyroAccepts (s : IMUState) (t : ℕ) : Prop :=
  0 < s.lastGyroTimestamp ∧ 0 < ((u64sub (u64 t) s.lastGyroTimestamp : ℕ) : ℝ) / 1000000

/-- Acceptance (freshness) condition of the accelerometer handler. -/
def accAccepts (s : IMUState) (t : ℕ) : Prop :=
  0 < s.lastAccTimestamp ∧ 0 < ((u64sub (u64 t) s.lastAccTimestamp : ℕ) : ℝ) / 1000000

/-- `IMU::gyroReadingChanged` (IMU.cpp 253-294), for a sample with timestamp
`t` and angular velocity `(gx, gy, gz)` in degrees per second.  The `Bool`
result records whether `rotationChanged` was emitted. -/
def gyroReadingChanged (s : IMUState) (t : ℕ) (gx gy gz : ℝ) : IMUState × Bool :=
  let ts := u64 t
  if 0 < s.lastGyroTimestamp then
    if 0 < ((u64sub ts s.lastGyroTimestamp : ℕ) : ℝ) / 1000000 then
      let dt := ((u64sub ts s.lastGyroTimestamp : ℕ) : ℝ) / 1000000
      let s1 :=
        { s with
          wDeltaT := dt,
          gyroSilentCycles := 0,
          startupTime := if 0 < s.startupTime then s.startupTime - dt else s.startupTime,
          w := ![degToRad gx, degToRad gy, degToRad gz],
          w_norm := vec3norm ![degToRad gx, degToRad gy, degToRad gz] }
      let s2 := predictStep (calculateProcess s1)
      let s3 := { s2 with statePre := normalizeQuat s2.statePre }
      let s4 :=
        { s3 with
          statePre := (shortestPathQuat s3.statePreHistory s3.statePre).2,
          statePreHistory := (shortestPathQuat s3.statePreHistory s3.statePre).1 }
      let s5 := { s4 with statePost := s4.statePre }
      let r := calculateOutputRotation s5
      ({ r.1 with lastGyroTimestamp := ts }, r.2)
    else
      ({ s with wDeltaT := ((u64sub ts s.lastGyroTimestamp : ℕ) : ℝ) / 1000000,
                lastGyroTimestamp := ts }, false)
  else ({ s with lastGyroTimestamp := ts }, false)

/-- `IMU::accReadingChanged` (IMU.cpp 296-325). -/
def accReadingChanged (s : IMUState) (t : ℕ) (ax ay az : ℝ) : IMUState × Bool :=
  let ts := u64 t
  if 0 < s.lastAccTimestamp then
    if 0 < ((u64sub ts s.lastAccTimestamp : ℕ) : ℝ) / 1000000 then
      let s1 :=
        { s with
          accSilentCycles := 0,
          a := ![ax, ay, az],
          a_norm := vec3norm ![ax, ay, az] }
      let s2 := correctStep (calculateObservation s1)
      let s3 := { s2 with statePost := normalizeQuat s2.statePost }
      let s4 :=
        { s3 with
          statePost := (shortestPathQuat s3.statePostHistory s3.statePost).2,
          statePostHistory := (shortestPathQuat s3.statePostHistory s3.statePost).1 }
      let r := calculateOutputRotation s4
      ({ r.1 with lastAccTimestamp := ts }, r.2)
    else ({ s with lastAccTimestamp := ts }, false)
  else ({ s with lastAccTimestamp := ts }, false)

/-- `IMU::magReadingChanged` (IMU.cpp 327-341): the reading (in Tesla) is
scaled by `1e6` and stored with its norm, and `magDataReady` is set — but only
for a fresh non-first sample.  No filter step is performed. -/
def magReadingChanged (s : IMUState) (t : ℕ) (mx my mz : ℝ) : IMUState :=
  let ts := u64 t
  if 0 < s.lastMagTimestamp then
    if 0 < ((u64sub ts s.lastMagTimestamp : ℕ) : ℝ) / 1000000 then
      { s with
        magSilentCycles := 0,
        m := ![mx * 1000000, my * 1000000, mz * 1000000],
        m_norm := vec3norm ![mx * 1000000, my * 1000000, mz * 1000000],
        magDataReady := true,
        lastMagTimestamp := ts }
    else { s with lastMagTimestamp := ts }
  else { s with lastMagTimestamp := ts }

/-- One timestamped sensor sample. -/
inductive Sample where
  | gyro (t : ℕ) (x y z : ℝ)
  | acc (t : ℕ) (x y z : ℝ)
  | mag (t : ℕ) (x y z : ℝ)

/-- Whether a sample belongs to the gyroscope stream. -/
def Sample.isGyro : Sample → Bool
  | .gyro _ _ _ _ => true
  | _ => false

/-- Deliver one sample to the estimator; the `Bool` records whether
`rotationChanged` was emitted. -/
def stepSample (s : IMUState) : Sample → IMUState × Bool
  | .gyro t x y z => gyroReadingChanged s t x y z
  | .acc t x y z => accReadingChanged s t x y z
  | .mag t x y z => (magReadingChanged s t x y z, false)

/-- Deliver a list of samples in order; the second component counts the
`rotationChanged` emissions. -/
def runSamples (s : IMUState) : List Sample → IMUState × ℕ
  | [] => (s, 0)
  | x :: xs =>
      let r := stepSample s x
      let r2 := runSamples r.1 xs
      (r2.1, (if r.2 then 1 else 0) + r2.2)

/-- Whether, while delivering the list of samples, some gyro sample is
accepted (passes the non-first / positive time step guard). -/
def anyGyroAccepted (s : IMUState) : List Sample → Prop
  | [] => False
  | x :: xs =>
      (match x with
        | .gyro t _ _ _ => gyroAccepts s t
        | _ => False) ∨ anyGyroAccepted (stepSample s x).1 xs

/-- The standard 4x4 quaternion-rate matrix `Omega(w)` of spec section 4.3. -/
def Omega (w : Fin 3 → ℝ) : Matrix (Fin 4) (Fin 4) ℝ :=
  !![0, -w 0, -w 1, -w 2;
     w 0, 0, w 2, -w 1;
     w 1, -w 2, 0, w 0;
     w 2, w 1, -w 0, 0]

end

noncomputable section

/-! Projection lemmas: which state fields each operation leaves unchanged. -/

@[simp] lemma calculateProcess_startupTime (s : IMUState) :
    (calculateProcess s).startupTime = s.startupTime := rfl

@[simp] lemma calculateProcess_wDeltaT (s : IMUState) :
    (calculateProcess s).wDeltaT = s.wDeltaT := rfl

@[simp] lemma calculateProcess_statePreHistory (s : IMUState) :
    (calculateProcess s).statePreHistory = s.statePreHistory := rfl

@[simp] lemma calculateProcess_statePostHistory (s : IMUState) :
    (calculateProcess s).statePostHistory = s.statePostHistory := rfl

@[simp] lemma calculateProcess_rotAxis (s : IMUState) :
    (calculateProcess s).rotAxis = s.rotAxis := rfl

@[simp] lemma calculateProcess_rotAngle (s : IMUState) :
    (calculateProcess s).rotAngle = s.rotAngle := rfl

@[simp] lemma calculateProcess_gyroId (s : IMUState) :
    (calculateProcess s).gyroId = s.gyroId := rfl

@[simp] lemma calculateProcess_statePost (s : IMUState) :
    (calculateProcess s).statePost = s.statePost := rfl

@[simp] lemma predictStep_startupTime (s : IMUState) :
    (predictStep s).startupTime = s.startupTime := rfl

@[simp] lemma predictStep_wDeltaT (s : IMUState) :
    (predictStep s).wDeltaT = s.wDeltaT := rfl

@[simp] lemma predictStep_statePreHistory (s : IMUState) :
    (predictStep s).statePreHistory = s.statePreHistory := rfl

@[simp] lemma predictStep_statePostHistory (s : IMUState) :
    (predictStep s).statePostHistory = s.statePostHistory := rfl

@[simp] lemma predictStep_rotAxis (s : IMUState) :
    (predictStep s).rotAxis = s.rotAxis := rfl

@[simp] lemma predictStep_rotAngle (s : IMUState) :
    (predictStep s).rotAngle = s.rotAngle := rfl

@[simp] lemma predictStep_gyroId (s : IMUState) :
    (predictStep s).gyroId = s.gyroId := rfl

@[simp] lemma predictStep_statePre (s : IMUState) :
    (predictStep s).statePre = s.process := rfl

@[simp] lemma calculateObservation_startupTime (s : IMUState) :
    (calculateObservation s).startupTime = s.startupTime := rfl

@[simp] lemma calculateObservation_rotAxis (s : IMUState) :
    (calculateObservation s).rotAxis = s.rotAxis := rfl

@[simp] lemma calculateObservation_rotAngle (s : IMUState) :
    (calculateObservation s).rotAngle = s.rotAngle := rfl

@[simp] lemma calculateObservation_statePost (s : IMUState) :
    (calculateObservation s).statePost = s.statePost := rfl

@[simp] lemma calculateObservation_statePostHistory (s : IMUState) :
    (calculateObservation s).statePostHistory = s.statePostHistory := rfl

@[simp] lemma calculateObservation_gyroId (s : IMUState) :
    (calculateObservation s).gyroId = s.gyroId := rfl

@[simp] lemma calculateObservation_statePre (s : IMUState) :
    (calculateObservation s).statePre = s.statePre := rfl

@[simp] lemma correctStep_startupTime (s : IMUState) :
    (correctStep s).startupTime = s.startupTime := rfl

@[simp] lemma correctStep_rotAxis (s : IMUState) :
    (correctStep s).rotAxis = s.rotAxis := rfl

@[simp] lemma correctStep_rotAngle (s : IMUState) :
    (correctStep s).rotAngle = s.rotAngle := rfl

@[simp] lemma correctStep_statePostHistory (s : IMUState) :
    (correctStep s).statePostHistory = s.statePostHistory := rfl

@[simp] lemma correctStep_gyroId (s : IMUState) :
    (correctStep s).gyroId = s.gyroId := rfl

@[simp] lemma correctStep_statePre (s : IMUState) :
    (correctStep s).statePre = s.statePre := rfl

@[simp] lemma bumpSilentCycles_startupTime (s : IMUState) :
    (bumpSilentCycles s).startupTime = s.startupTime := rfl

@[simp] lemma bumpSilentCycles_statePost (s : IMUState) :
    (bumpSilentCycles s).statePost = s.statePost := rfl

@[simp] lemma calculateOutputRotation_startupTime (s : IMUState) :
    (calculateOutputRotation s).1.startupTime = s.startupTime := by
  simp only [calculateOutputRotation]
  split_ifs <;> rfl

@[simp] lemma calculateOutputRotation_wDeltaT (s : IMUState) :
    (calculateOutputRotation s).1.wDeltaT = s.wDeltaT := by
  simp only [calculateOutputRotation]
  split_ifs <;> rfl

@[simp] lemma calculateOutputRotation_statePre (s : IMUState) :
    (calculateOutputRotation s).1.statePre = s.statePre := by
  simp only [calculateOutputRotation]
  split_ifs <;> rfl

@[simp] lemma calculateOutputRotation_statePost (s : IMUState) :
    (calculateOutputRotation s).1.statePost = s.statePost := by
  simp only [calculateOutputRotation]
  split_ifs <;> rfl

@[simp] lemma calculateOutputRotation_statePreHistory (s : IMUState) :
    (calculateOutputRotation s).1.statePreHistory = s.statePreHistory := by
  simp only [calculateOutputRotation]
  split_ifs <;> rfl

@[simp] lemma calculateOutputRotation_statePostHistory (s : IMUState) :
    (calculateOutputRotation s).1.statePostHistory = s.statePostHistory := by
  simp only [calculateOutputRotation]
  split_ifs <;> rfl

lemma calculateOutputRotation_rotAxis_of_startup (s : IMUState) (h : 0 < s.startupTime) :
    (calculateOutputRotation s).1.rotAxis = s.rotAxis := by
  simp only [calculateOutputRotation]
  split_ifs with h1 h2 h3
  · rfl
  · rfl
  · exact absurd h (by simpa using h2)
  · exact absurd h (by simpa using h2)

lemma calculateOutputRotation_rotAngle_of_startup (s : IMUState) (h : 0 < s.startupTime) :
    (calculateOutputRotation s).1.rotAngle = s.rotAngle := by
  simp only [calculateOutputRotation]
  split_ifs with h1 h2 h3
  · rfl
  · rfl
  · exact absurd h (by simpa using h2)
  · exact absurd h (by simpa using h2)

lemma calculateOutputRotation_emit_of_startup (s : IMUState) (h : 0 < s.startupTime) :
    (calculateOutputRotation s).2 = false := by
  simp only [calculateOutputRotation]
  split_ifs with h1 h2 h3
  · rfl
  · rfl
  · exact absurd h (by simpa using h2)
  · exact absurd h (by simpa using h2)

lemma calculateOutputRotation_emit_of_operational (s : IMUState) (hg : s.gyroId ≠ "")
    (h : ¬ 0 < s.startupTime) :
    (calculateOutputRotation s).2 = true := by
  simp only [calculateOutputRotation]
  split_ifs with h1 h2 h3
  · exact absurd h1 hg
  · exact absurd (by simpa using h2) h
  · rfl
  · rfl

end

noncomputable section

@[simp] lemma calculateObservation_a (s : IMUState) :
    (calculateObservation s).a = s.a := rfl

@[simp] lemma correctStep_a (s : IMUState) :
    (correctStep s).a = s.a := rfl

@[simp] lemma calculateOutputRotation_a (s : IMUState) :
    (calculateOutputRotation s).1.a = s.a := by
  simp only [calculateOutputRotation]
  split_ifs <;> rfl

lemma shortestPathQuat_dot_nonneg (p q : Fin 4 → ℝ) :
    0 ≤ quatDot (shortestPathQuat p q).2 p := by
  simp only [shortestPathQuat]
  split_ifs with h
  · have hneg : quatDot (fun i => -q i) p = -quatDot q p := by unfold quatDot; ring
    rw [hneg]
    linarith
  · exact le_of_not_lt h

lemma shortestPathQuat_cases (p q : Fin 4 → ℝ) :
    (shortestPathQuat p q).2 = q ∨ (shortestPathQuat p q).2 = fun i => -q i := by
  simp only [shortestPathQuat]
  split_ifs with h
  · exact Or.inr rfl
  · exact Or.inl rfl

/-- C6: `normalizeQuat` divides each component by
`n = sqrt(q0^2 + q1^2 + q2^2 + q3^2)` when `n` is greater than the machine
epsilon of the working float, so that the result has unit norm, and otherwise
sets all four components to 1. -/
theorem normalizeQuat_spec (q : Fin 4 → ℝ) :
    (EPSILON < quatN q →
      normalizeQuat q = (fun i => q i / quatN q) ∧ quatN (normalizeQuat q) = 1) ∧
    (¬ EPSILON < quatN q → normalizeQuat q = fun _ => 1) := by
  constructor
  · intro h
    have hq : normalizeQuat q = fun i => q i / quatN q := by
      simp only [normalizeQuat, if_pos h]
    have h0 : 0 < quatN q := lt_trans (by norm_num [EPSILON]) h
    refine ⟨hq, ?_⟩
    rw [hq]
    show Real.sqrt ((q 0 / quatN q) ^ 2 + (q 1 / quatN q) ^ 2 +
      (q 2 / quatN q) ^ 2 + (q 3 / quatN q) ^ 2) = 1
    have hsum : (0 : ℝ) ≤ q 0 ^ 2 + q 1 ^ 2 + q 2 ^ 2 + q 3 ^ 2 := by positivity
    have hsq : quatN q ^ 2 = q 0 ^ 2 + q 1 ^ 2 + q 2 ^ 2 + q 3 ^ 2 := Real.sq_sqrt hsum
    rw [div_pow, div_pow, div_pow, div_pow, div_add_div_same, div_add_div_same,
      div_add_div_same, ← hsq, div_self (pow_ne_zero 2 (ne_of_gt h0)), Real.sqrt_one]
  · intro h
    simp only [normalizeQuat, if_neg h]

/-- C6 witness: at `q = (2, 0, 0, 0)` the norm is `2 > EPSILON`, each component
is divided by it, and the result has unit norm. -/
theorem normalizeQuat_spec_witness :
    EPSILON < quatN ![2, 0, 0, 0] ∧
    (normalizeQuat ![2, 0, 0, 0] =
      fun i => (![2, 0, 0, 0] : Fin 4 → ℝ) i / quatN ![2, 0, 0, 0]) ∧
    quatN (normalizeQuat ![2, 0, 0, 0]) = 1 := by
  have hN : quatN ![(2 : ℝ), 0, 0, 0] = 2 := by
    unfold quatN
    norm_num
    rw [show (4 : ℝ) = 2 ^ 2 by norm_num, Real.sqrt_sq (by norm_num : (0 : ℝ) ≤ 2)]
  have hE : EPSILON < quatN ![(2 : ℝ), 0, 0, 0] := by
    rw [hN]; norm_num [EPSILON]
  exact ⟨hE, (normalizeQuat_spec ![2, 0, 0, 0]).1 hE⟩

/-- C7: the sign-alignment step yields a quaternion with non-negative dot
product against the history quaternion held before the step, equal to the
input or its componentwise negation, and copies the result into the history;
consequently, on every accepted gyro (resp. accel) sample the newly published
prior (resp. posterior) quaternion has non-negative dot product with the
previous prior (resp. posterior) history, and the history is left equal to the
published quaternion — so consecutive published quaternions of the same phase
have non-negative dot product. -/
theorem shortestPath_sign_alignment :
    (∀ p q : Fin 4 → ℝ,
      0 ≤ quatDot (shortestPathQuat p q).2 p ∧
      ((shortestPathQuat p q).2 = q ∨ (shortestPathQuat p q).2 = fun i => -q i) ∧
      (shortestPathQuat p q).1 = (shortestPathQuat p q).2) ∧
    (∀ (s : IMUState) (t : ℕ) (gx gy gz : ℝ), gyroAccepts s t →
      0 ≤ quatDot ((gyroReadingChanged s t gx gy gz).1.statePre) s.statePreHistory ∧
      (gyroReadingChanged s t gx gy gz).1.statePreHistory =
        (gyroReadingChanged s t gx gy gz).1.statePre) ∧
    (∀ (s : IMUState) (t : ℕ) (ax ay az : ℝ), accAccepts s t →
      0 ≤ quatDot ((accReadingChanged s t ax ay az).1.statePost) s.statePostHistory ∧
      (accReadingChanged s t ax ay az).1.statePostHistory =
        (accReadingChanged s t ax ay az).1.statePost) := by
  refine ⟨fun p q => ⟨shortestPathQuat_dot_nonneg p q, shortestPathQuat_cases p q, rfl⟩,
    ?_, ?_⟩
  · intro s t gx gy gz h
    obtain ⟨h1, h2⟩ := h
    simp only [gyroReadingChanged]
    rw [if_pos h1, if_pos h2]
    simp only [calculateOutputRotation_statePre, calculateOutputRotation_statePreHistory,
      predictStep_statePreHistory, calculateProcess_statePreHistory]
    exact ⟨shortestPathQuat_dot_nonneg _ _, rfl⟩
  · intro s t ax ay az h
    obtain ⟨h1, h2⟩ := h
    simp only [accReadingChanged]
    rw [if_pos h1, if_pos h2]
    simp only [calculateOutputRotation_statePost, calculateOutputRotation_statePostHistory,
      correctStep_statePostHistory, calculateObservation_statePostHistory]
    exact ⟨shortestPathQuat_dot_nonneg _ _, rfl⟩

/-- C7 witness: a concrete accepted gyro sample on a state with
`lastGyroTimestamp = 1` at `t = 2`. -/
theorem shortestPath_sign_alignment_witness :
    gyroAccepts { initIMU "g" "" "" with lastGyroTimestamp := 1 } 2 ∧
    0 ≤ quatDot ((gyroReadingChanged { initIMU "g" "" "" with lastGyroTimestamp := 1 }
        2 0 0 0).1.statePre)
      ({ initIMU "g" "" "" with lastGyroTimestamp := 1 } : IMUState).statePreHistory := by
  have hacc : gyroAccepts { initIMU "g" "" "" with lastGyroTimestamp := 1 } 2 := by
    constructor
    · norm_num
    · norm_num [u64, u64sub]
  exact ⟨hacc, (shortestPath_sign_alignment.2.1 _ 2 0 0 0 hacc).1⟩

/-- C10: each of the three sample handlers stores the incoming timestamp as
the stream's last timestamp unconditionally — also when the sample is dropped
as a first sample or for a non-positive time step — so the next sample's
time step is computed against the most recently delivered sample. -/
theorem lastTimestamps_always_updated (s : IMUState) (t : ℕ) (x y z : ℝ)
    (h : t < 2 ^ 64) :
    (gyroReadingChanged s t x y z).1.lastGyroTimestamp = t ∧
    (accReadingChanged s t x y z).1.lastAccTimestamp = t ∧
    (magReadingChanged s t x y z).lastMagTimestamp = t := by
  have hu : u64 t = t := Nat.mod_eq_of_lt h
  refine ⟨?_, ?_, ?_⟩
  · simp only [gyroReadingChanged]
    split_ifs <;> simp [hu]
  · simp only [accReadingChanged]
    split_ifs <;> simp [hu]
  · simp only [magReadingChanged]
    split_ifs <;> simp [hu]

/-- C10 witness: a dropped first sample at `t = 5` still updates the stored
timestamps. -/
theorem lastTimestamps_always_updated_witness :
    (5 : ℕ) < 2 ^ 64 ∧
    (magReadingChanged (initIMU "" "" "") 5 0 0 0).lastMagTimestamp = 5 :=
  ⟨by norm_num, (lastTimestamps_always_updated (initIMU "" "" "") 5 0 0 0 (by norm_num)).2.2⟩

end

noncomputable section

/-- C8 counterexample: the very first magnetometer sample is delivered to the
handler but — contrary to the claim — is not stored and does not set the
mag-fresh flag: only the last-mag timestamp changes. -/
theorem first_mag_sample_not_stored :
    (magReadingChanged (initIMU "g" "a" "m") 5 1 2 3).magDataReady = false ∧
    (magReadingChanged (initIMU "g" "a" "m") 5 1 2 3).m = ![0, 0, 0] ∧
    (magReadingChanged (initIMU "g" "a" "m") 5 1 2 3).lastMagTimestamp = 5 := by
  simp only [magReadingChanged]
  rw [if_neg (by simp [initIMU] : ¬ 0 < (initIMU "g" "a" "m").lastMagTimestamp)]
  refine ⟨rfl, rfl, ?_⟩
  show u64 5 = 5
  norm_num [u64]

/-- C8 amended: for every magnetometer sample that is not the stream's first
and whose time step is positive, the reading is scaled by `1e6`, stored
together with its norm, and the mag-fresh flag is set; no EKF predict or
correct step is performed by the handler itself (the filter states and
covariances are unchanged, and nothing is published). -/
theorem mag_handler_stores_scaled_reading (s : IMUState) (t : ℕ) (mx my mz : ℝ)
    (h1 : 0 < s.lastMagTimestamp)
    (h2 : 0 < ((u64sub (u64 t) s.lastMagTimestamp : ℕ) : ℝ) / 1000000) :
    (magReadingChanged s t mx my mz).m = ![mx * 1000000, my * 1000000, mz * 1000000] ∧
    (magReadingChanged s t mx my mz).m_norm =
      vec3norm ![mx * 1000000, my * 1000000, mz * 1000000] ∧
    (magReadingChanged s t mx my mz).magDataReady = true ∧
    (magReadingChanged s t mx my mz).statePre = s.statePre ∧
    (magReadingChanged s t mx my mz).statePost = s.statePost ∧
    (magReadingChanged s t mx my mz).errorCovPre = s.errorCovPre ∧
    (magReadingChanged s t mx my mz).errorCovPost = s.errorCovPost ∧
    (magReadingChanged s t mx my mz).rotAxis = s.rotAxis ∧
    (magReadingChanged s t mx my mz).rotAngle = s.rotAngle := by
  simp only [magReadingChanged]
  rw [if_pos h1, if_pos h2]
  exact ⟨rfl, rfl, rfl, rfl, rfl, rfl, rfl, rfl, rfl⟩

/-- C8 witness: a second magnetometer sample with a fresh timestamp sets the
mag-fresh flag. -/
theorem mag_handler_stores_scaled_reading_witness :
    0 < ({ initIMU "g" "a" "m" with lastMagTimestamp := 1 } : IMUState).lastMagTimestamp ∧
    (magReadingChanged { initIMU "g" "a" "m" with lastMagTimestamp := 1 }
      2 1 2 3).magDataReady = true := by
  have h1 : 0 < ({ initIMU "g" "a" "m" with
      lastMagTimestamp := 1 } : IMUState).lastMagTimestamp := by norm_num
  have h2 : 0 < ((u64sub (u64 2) ({ initIMU "g" "a" "m" with
      lastMagTimestamp := 1 } : IMUState).lastMagTimestamp : ℕ) : ℝ) / 1000000 := by
    norm_num [u64, u64sub]
  exact ⟨h1, (mag_handler_stores_scaled_reading _ 2 1 2 3 h1 h2).2.2.1⟩

/-- C1 counterexample: two gyro samples one million nanoseconds apart.  The
code computes a time step of `1` second — the timestamp difference divided by
`1e6` (Qt sensor timestamps are microseconds) — not the `1e-3` seconds the
claim's `(t - t_last)/1e9` conversion would give. -/
theorem deltaT_not_nanoseconds :
    ((gyroReadingChanged ((gyroReadingChanged (initIMU "" "" "") 1 0 0 0).1)
      1000001 0 0 0).1.wDeltaT = 1) ∧
    ((1000001 - 1 : ℝ) / 1000000000 = 1 / 1000) ∧ ((1 : ℝ) ≠ 1 / 1000) := by
  have e1 : (gyroReadingChanged (initIMU "" "" "") 1 0 0 0).1 =
      { initIMU "" "" "" with lastGyroTimestamp := 1 } := by
    simp only [gyroReadingChanged]
    rw [if_neg (by simp [initIMU] : ¬ 0 < (initIMU "" "" "").lastGyroTimestamp)]
    norm_num [u64]
  refine ⟨?_, by norm_num, by norm_num⟩
  rw [e1]
  simp only [gyroReadingChanged, calculateOutputRotation_wDeltaT, predictStep_wDeltaT,
    calculateProcess_wDeltaT]
  norm_num [u64, u64sub]

/-- C1 amended: the time step is the wrapped unsigned 64-bit timestamp
difference divided by `1e6` (microsecond timestamps), and the accelerometer
stream applies the same `1e6` conversion in its freshness test: the stored
acceleration changes exactly when that quotient is positive. -/
theorem deltaT_conversion_1e6 (s : IMUState) (t : ℕ) (gx gy gz ax ay az : ℝ)
    (hg : 0 < s.lastGyroTimestamp) (ha : 0 < s.lastAccTimestamp) :
    (gyroReadingChanged s t gx gy gz).1.wDeltaT =
      ((u64sub (u64 t) s.lastGyroTimestamp : ℕ) : ℝ) / 1000000 ∧
    (accReadingChanged s t ax ay az).1.a =
      (if 0 < ((u64sub (u64 t) s.lastAccTimestamp : ℕ) : ℝ) / 1000000
       then ![ax, ay, az] else s.a) := by
  constructor
  · simp only [gyroReadingChanged]
    rw [if_pos hg]
    by_cases h : 0 < ((u64sub (u64 t) s.lastGyroTimestamp : ℕ) : ℝ) / 1000000
    · rw [if_pos h]
      simp only [calculateOutputRotation_wDeltaT, predictStep_wDeltaT,
        calculateProcess_wDeltaT]
    · rw [if_neg h]
  · simp only [accReadingChanged]
    rw [if_pos ha]
    by_cases h : 0 < ((u64sub (u64 t) s.lastAccTimestamp : ℕ) : ℝ) / 1000000
    · rw [if_pos h, if_pos h]
      simp only [calculateOutputRotation_a, correctStep_a, calculateObservation_a]
    · rw [if_neg h, if_neg h]

/-- C1 witness: a gyro and an accel sample at `t = 5` on a state whose last
timestamps are 3. -/
theorem deltaT_conversion_1e6_witness :
    0 < ({ initIMU "" "" "" with lastGyroTimestamp := 3, lastAccTimestamp := 3 } :
      IMUState).lastGyroTimestamp ∧
    (gyroReadingChanged { initIMU "" "" "" with lastGyroTimestamp := 3, lastAccTimestamp := 3 }
        5 0 0 0).1.wDeltaT =
      ((u64sub (u64 5) 3 : ℕ) : ℝ) / 1000000 := by
  have hg : 0 < ({ initIMU "" "" "" with lastGyroTimestamp := 3, lastAccTimestamp := 3 } :
      IMUState).lastGyroTimestamp := by norm_num
  have ha : 0 < ({ initIMU "" "" "" with lastGyroTimestamp := 3, lastAccTimestamp := 3 } :
      IMUState).lastAccTimestamp := by norm_num
  exact ⟨hg, (deltaT_conversion_1e6 _ 5 0 0 0 0 0 0 hg ha).1⟩

end

noncomputable section

/-- C3: evidence for the code bug.  Two gyro samples arrive with decreasing
timestamps (100, then 50).  The claim (and the spec) says the second sample is
dropped with all filter state unchanged; instead the unsigned 64-bit
subtraction wraps around, the time step becomes the hugely positive
`(2^64 - 50)/1e6` seconds, and the sample is processed: the startup countdown
changes from 1 to a negative value. -/
theorem out_of_order_gyro_sample_processed :
    ((gyroReadingChanged (gyroReadingChanged (initIMU "" "" "") 100 0 0 0).1
        50 0 0 0).1.startupTime = 1 - 18446744073709551566 / 1000000) ∧
    ((gyroReadingChanged (gyroReadingChanged (initIMU "" "" "") 100 0 0 0).1
        50 0 0 0).1.startupTime < 0) ∧
    ((gyroReadingChanged (initIMU "" "" "") 100 0 0 0).1.startupTime = 1) := by
  have e1 : (gyroReadingChanged (initIMU "" "" "") 100 0 0 0).1 =
      { initIMU "" "" "" with lastGyroTimestamp := 100 } := by
    simp only [gyroReadingChanged]
    rw [if_neg (by simp [initIMU] : ¬ 0 < (initIMU "" "" "").lastGyroTimestamp)]
    norm_num [u64]
  have e2 : (gyroReadingChanged (gyroReadingChanged (initIMU "" "" "") 100 0 0 0).1
      50 0 0 0).1.startupTime = 1 - 18446744073709551566 / 1000000 := by
    rw [e1]
    simp only [gyroReadingChanged]
    norm_num [u64, u64sub, calculateOutputRotation_startupTime, predictStep_startupTime,
      calculateProcess_startupTime, initIMU]
  refine ⟨e2, ?_, ?_⟩
  · rw [e2]; norm_num
  · rw [e1]; simp [initIMU]

/-- C9: while the startup countdown is positive no `rotationChanged` is
emitted and the output axis and angle are not updated, yet the silent-cycle
counters of the open streams are still incremented on each publish; once the
countdown is no longer positive, any publish — in particular the next gyro- or
accel-driven one — emits. -/
theorem startup_suppresses_output (s : IMUState) :
    (0 < s.startupTime →
      (calculateOutputRotation s).2 = false ∧
      (calculateOutputRotation s).1.rotAxis = s.rotAxis ∧
      (calculateOutputRotation s).1.rotAngle = s.rotAngle) ∧
    (0 < s.startupTime → s.gyroId ≠ "" →
      (calculateOutputRotation s).1.gyroSilentCycles = s.gyroSilentCycles + 1 ∧
      (calculateOutputRotation s).1.accSilentCycles =
        (if s.accId = "" then s.accSilentCycles else s.accSilentCycles + 1) ∧
      (calculateOutputRotation s).1.magSilentCycles =
        (if s.magId = "" then s.magSilentCycles else s.magSilentCycles + 1)) ∧
    (s.gyroId ≠ "" → ¬ 0 < s.startupTime → (calculateOutputRotation s).2 = true) ∧
    (∀ (t : ℕ) (gx gy gz : ℝ), gyroAccepts s t → s.gyroId ≠ "" →
      ¬ 0 < (gyroReadingChanged s t gx gy gz).1.startupTime →
      (gyroReadingChanged s t gx gy gz).2 = true) ∧
    (∀ (t : ℕ) (ax ay az : ℝ), accAccepts s t → s.gyroId ≠ "" → ¬ 0 < s.startupTime →
      (accReadingChanged s t ax ay az).2 = true) := by
  refine ⟨fun h => ⟨calculateOutputRotation_emit_of_startup s h,
      calculateOutputRotation_rotAxis_of_startup s h,
      calculateOutputRotation_rotAngle_of_startup s h⟩, ?_, ?_, ?_, ?_⟩
  · intro h hg
    simp only [calculateOutputRotation, bumpSilentCycles_startupTime]
    rw [if_neg hg, if_pos h]
    exact ⟨rfl, rfl, rfl⟩
  · exact fun hg h => calculateOutputRotation_emit_of_operational s hg h
  · intro t gx gy gz hacc hg hst
    obtain ⟨h1, h2⟩ := hacc
    simp only [gyroReadingChanged] at hst ⊢
    rw [if_pos h1, if_pos h2] at hst ⊢
    simp only [calculateOutputRotation_startupTime] at hst
    refine calculateOutputRotation_emit_of_operational _ ?_ hst
    simpa only [predictStep_gyroId, calculateProcess_gyroId] using hg
  · intro t ax ay az hacc hg hst
    obtain ⟨h1, h2⟩ := hacc
    simp only [accReadingChanged]
    rw [if_pos h1, if_pos h2]
    refine calculateOutputRotation_emit_of_operational _ ?_ ?_
    · simpa only [correctStep_gyroId, calculateObservation_gyroId] using hg
    · simpa only [correctStep_startupTime, calculateObservation_startupTime] using hst

/-- C9 witness: in the fresh state the countdown is 1 and a publish does not
emit; with the countdown at 0 a publish emits. -/
theorem startup_suppresses_output_witness :
    (calculateOutputRotation (initIMU "g" "" "")).2 = false ∧
    (calculateOutputRotation { initIMU "g" "" "" with startupTime := 0 }).2 = true := by
  constructor
  · exact ((startup_suppresses_output (initIMU "g" "" "")).1 (by simp [initIMU])).1
  · exact (startup_suppresses_output _).2.2.1 (by simp [initIMU]) (by norm_num)

noncomputable section

lemma stepSample_no_gyro_preserves (s : IMUState) (x : Sample) (hx : x.isGyro = false)
    (hst : 0 < s.startupTime) :
    (stepSample s x).1.startupTime = s.startupTime ∧
    (stepSample s x).1.rotAxis = s.rotAxis ∧
    (stepSample s x).1.rotAngle = s.rotAngle ∧
    (stepSample s x).2 = false := by
  cases x with
  | gyro t gx gy gz => simp [Sample.isGyro] at hx
  | acc t ax ay az =>
      simp only [stepSample, accReadingChanged]
      split_ifs with h1 h2
      · refine ⟨?_, ?_, ?_, ?_⟩
        · simp only [calculateOutputRotation_startupTime, correctStep_startupTime,
            calculateObservation_startupTime]
        · simp [calculateOutputRotation_rotAxis_of_startup, correctStep_startupTime,
            calculateObservation_startupTime, correctStep_rotAxis,
            calculateObservation_rotAxis, hst]
        · simp [calculateOutputRotation_rotAngle_of_startup, correctStep_startupTime,
            calculateObservation_startupTime, correctStep_rotAngle,
            calculateObservation_rotAngle, hst]
        · simp [calculateOutputRotation_emit_of_startup, correctStep_startupTime,
            calculateObservation_startupTime, hst]
      · exact ⟨rfl, rfl, rfl, rfl⟩
      · exact ⟨rfl, rfl, rfl, rfl⟩
  | mag t mx my mz =>
      refine ⟨?_, ?_, ?_, rfl⟩ <;>
      · show _ = _
        simp only [stepSample, magReadingChanged]
        split_ifs <;> rfl

lemma gyro_dropped_preserves (s : IMUState) (t : ℕ) (gx gy gz : ℝ)
    (h : ¬ gyroAccepts s t) :
    (gyroReadingChanged s t gx gy gz).1.startupTime = s.startupTime ∧
    (gyroReadingChanged s t gx gy gz).1.rotAxis = s.rotAxis ∧
    (gyroReadingChanged s t gx gy gz).1.rotAngle = s.rotAngle ∧
    (gyroReadingChanged s t gx gy gz).2 = false := by
  by_cases h1 : 0 < s.lastGyroTimestamp
  · have h2 : ¬ 0 < ((u64sub (u64 t) s.lastGyroTimestamp : ℕ) : ℝ) / 1000000 :=
      fun hh => h ⟨h1, hh⟩
    simp only [gyroReadingChanged]
    rw [if_pos h1, if_neg h2]
    exact ⟨rfl, rfl, rfl, rfl⟩
  · simp only [gyroReadingChanged]
    rw [if_neg h1]
    exact ⟨rfl, rfl, rfl, rfl⟩

lemma runSamples_no_gyro_accepted (l : List Sample) (s : IMUState)
    (hst : 0 < s.startupTime) (hl : ¬ anyGyroAccepted s l) :
    (runSamples s l).1.startupTime = s.startupTime ∧
    (runSamples s l).1.rotAxis = s.rotAxis ∧
    (runSamples s l).1.rotAngle = s.rotAngle ∧
    (runSamples s l).2 = 0 := by
  induction l generalizing s with
  | nil => exact ⟨rfl, rfl, rfl, rfl⟩
  | cons x xs ih =>
      simp only [anyGyroAccepted] at hl
      obtain ⟨hx, hxs⟩ := not_or.mp hl
      have step : (stepSample s x).1.startupTime = s.startupTime ∧
          (stepSample s x).1.rotAxis = s.rotAxis ∧
          (stepSample s x).1.rotAngle = s.rotAngle ∧
          (stepSample s x).2 = false := by
        cases x with
        | gyro t gx gy gz => exact gyro_dropped_preserves s t gx gy gz hx
        | acc t ax ay az => exact stepSample_no_gyro_preserves s _ rfl hst
        | mag t mx my mz => exact stepSample_no_gyro_preserves s _ rfl hst
      obtain ⟨e1, e2, e3, e4⟩ := step
      have ih' := ih (stepSample s x).1 (by rw [e1]; exact hst) hxs
      simp only [runSamples]
      refine ⟨?_, ?_, ?_, ?_⟩
      · rw [ih'.1, e1]
      · rw [ih'.2.1, e2]
      · rw [ih'.2.2.1, e3]
      · simp [e4, ih'.2.2.2]

/-- C4: if no gyro sample is ever processed (none passes the non-first /
positive time step guard), then after any list of delivered samples the
rotation axis is `(0,0,0)`, the rotation angle is 0, and no `rotationChanged`
was ever emitted. -/
theorem no_gyro_zero_output (gid aid mid : String) (l : List Sample)
    (h : ¬ anyGyroAccepted (initIMU gid aid mid) l) :
    (runSamples (initIMU gid aid mid) l).1.rotAxis = ![0, 0, 0] ∧
    (runSamples (initIMU gid aid mid) l).1.rotAngle = 0 ∧
    (runSamples (initIMU gid aid mid) l).2 = 0 := by
  obtain ⟨h1, h2, h3, h4⟩ :=
    runSamples_no_gyro_accepted l (initIMU gid aid mid) (by simp [initIMU]) h
  refine ⟨?_, ?_, h4⟩
  · rw [h2]; rfl
  · rw [h3]; rfl

/-- C4 witness: a trace consisting of a single accelerometer sample contains
no accepted gyro sample, and yields no emission. -/
theorem no_gyro_zero_output_witness :
    ¬ anyGyroAccepted (initIMU "g" "a" "m") [Sample.acc 5 1 2 3] ∧
    (runSamples (initIMU "g" "a" "m") [Sample.acc 5 1 2 3]).2 = 0 := by
  have h : ¬ anyGyroAccepted (initIMU "g" "a" "m") [Sample.acc 5 1 2 3] := by
    simp [anyGyroAccepted]
  exact ⟨h, (no_gyro_zero_output "g" "a" "m" _ h).2.2⟩

noncomputable section

/-- C5: on the data of an accepted gyro sample, the process vector is the
normalization of `q + (dt/2) * Omega(w) * q` computed from the posterior
quaternion, the transition matrix is `I + (dt/2) * Omega(w)` — unit diagonal
(the diagonal writes are commented out; the filter initializes the matrix to
the identity and nothing else ever writes the diagonal) and off-diagonal
entries following the Omega pattern — and the process-noise covariance is
`Q * dt` with `Q` the diagonal `1e-4` matrix. -/
theorem process_model_spec (s : IMUState) (hdiag : ∀ i, s.transitionMatrix i i = 1) :
    (calculateProcess s).process =
      normalizeQuat (fun i => s.statePost i + s.wDeltaT / 2 * (Omega s.w).mulVec s.statePost i) ∧
    (calculateProcess s).transitionMatrix = 1 + (s.wDeltaT / 2) • Omega s.w ∧
    (calculateProcess s).processNoiseCov = s.wDeltaT • Qmat := by
  refine ⟨?_, ?_, ?_⟩
  · simp only [calculateProcess]
    refine congrArg normalizeQuat ?_
    funext i
    fin_cases i <;>
      simp [Omega, Matrix.mulVec, Matrix.dotProduct, Fin.sum_univ_four] <;> ring
  · simp only [calculateProcess]
    ext i j
    fin_cases i <;> fin_cases j <;>
      simp [Omega, Matrix.one_apply, Matrix.add_apply, Matrix.smul_apply, hdiag,
        -mul_eq_mul_left_iff, -mul_eq_mul_right_iff] <;> ring
  · simp only [calculateProcess]
    ext i j
    simp only [Matrix.of_apply, Matrix.smul_apply, smul_eq_mul]
    ring

/-- C5 witness: the fresh state has a unit transition-matrix diagonal, and the
process-noise covariance after `calculateProcess` is `wDeltaT * Q`. -/
theorem process_model_spec_witness :
    (∀ i, (initIMU "" "" "").transitionMatrix i i = 1) ∧
    (calculateProcess (initIMU "" "" "")).processNoiseCov =
      (initIMU "" "" "").wDeltaT • Qmat := by
  have hdiag : ∀ i, (initIMU "" "" "").transitionMatrix i i = 1 := by
    intro i
    simp [initIMU, Matrix.one_apply]
  exact ⟨hdiag, (process_model_spec _ hdiag).2.2⟩

noncomputable section

lemma calculateOutputRotation_operational_small (s : IMUState) (hg : ¬ s.gyroId = "")
    (hst : ¬ 0 < s.startupTime) (h : outputTheta s.statePost < EPSILON) :
    (calculateOutputRotation s).1.rotAxis = ![0, 0, 0] ∧
    (calculateOutputRotation s).1.rotAngle = 0 ∧
    (calculateOutputRotation s).2 = true := by
  simp only [calculateOutputRotation, bumpSilentCycles_startupTime, bumpSilentCycles_statePost]
  rw [if_neg hg, if_neg hst, if_pos h]
  exact ⟨rfl, rfl, rfl⟩

lemma calculateOutputRotation_operational_large (s : IMUState) (hg : ¬ s.gyroId = "")
    (hst : ¬ 0 < s.startupTime) (h : ¬ outputTheta s.statePost < EPSILON) :
    (calculateOutputRotation s).1.rotAxis =
      ![s.statePost 1 * Real.sin (outputTheta s.statePost / 2),
        s.statePost 2 * Real.sin (outputTheta s.statePost / 2),
        s.statePost 3 * Real.sin (outputTheta s.statePost / 2)] ∧
    (calculateOutputRotation s).1.rotAngle = outputTheta s.statePost * 180 / Real.pi ∧
    (calculateOutputRotation s).2 = true := by
  simp only [calculateOutputRotation, bumpSilentCycles_startupTime, bumpSilentCycles_statePost]
  rw [if_neg hg, if_neg hst, if_neg h]
  exact ⟨rfl, rfl, rfl⟩

/-- The posterior quaternion of a 90-degree rotation about the x axis. -/
def tiltQuat : Fin 4 → ℝ := ![Real.sqrt 2 / 2, Real.sqrt 2 / 2, 0, 0]

/-- C2 counterexample: publishing the posterior `tiltQuat` (a 90-degree
rotation, so the angle is not zero) yields a rotation axis of norm `1/2` —
not a unit vector.  The published angle is 90 degrees. -/
theorem rotation_axis_not_unit :
    (calculateOutputRotation { initIMU "g" "" "" with
        statePost := tiltQuat, startupTime := 0 }).1.rotAngle = 90 ∧
    vec3norm (calculateOutputRotation { initIMU "g" "" "" with
        statePost := tiltQuat, startupTime := 0 }).1.rotAxis = 1 / 2 ∧
    ((1 : ℝ) / 2 ≠ 1) ∧ ((90 : ℝ) ≠ 0) := by
  have h20 : (0 : ℝ) < Real.sqrt 2 := Real.sqrt_pos.mpr (by norm_num)
  have hpos : (0 : ℝ) < Real.sqrt 2 / 2 := by positivity
  have hmul : Real.sqrt 2 / 2 * (Real.sqrt 2 / 2) = 1 / 2 := by
    rw [div_mul_div_comm, Real.mul_self_sqrt (by norm_num : (0 : ℝ) ≤ 2)]
    norm_num
  have hsq : (Real.sqrt 2 / 2) ^ 2 = 1 / 2 := by rw [sq]; exact hmul
  have hinner : Real.sqrt (tiltQuat 1 ^ 2 + tiltQuat 2 ^ 2 + tiltQuat 3 ^ 2) =
      Real.sqrt 2 / 2 := by
    show Real.sqrt ((Real.sqrt 2 / 2) ^ 2 + (0 : ℝ) ^ 2 + (0 : ℝ) ^ 2) = Real.sqrt 2 / 2
    have e : (Real.sqrt 2 / 2 : ℝ) ^ 2 + (0 : ℝ) ^ 2 + (0 : ℝ) ^ 2 =
        (Real.sqrt 2 / 2) ^ 2 := by norm_num
    rw [e, Real.sqrt_sq hpos.le]
  have htheta : outputTheta tiltQuat = Real.pi / 2 := by
    unfold outputTheta
    rw [hinner]
    show 2 * atan2 (Real.sqrt 2 / 2) (Real.sqrt 2 / 2) = Real.pi / 2
    unfold atan2
    rw [if_pos hpos, div_self (ne_of_gt hpos), Real.arctan_one]
    ring
  have hnlt : ¬ outputTheta tiltQuat < EPSILON := by
    rw [htheta]
    intro hlt
    have hp := Real.pi_gt_three
    have he : EPSILON < 3 / 2 := by norm_num [EPSILON]
    linarith
  have hg : ¬ ({ initIMU "g" "" "" with statePost := tiltQuat, startupTime := 0 } :
      IMUState).gyroId = "" := by simp [initIMU]
  have hst : ¬ (0 : ℝ) <
      ({ initIMU "g" "" "" with statePost := tiltQuat, startupTime := 0 } :
        IMUState).startupTime := by norm_num
  obtain ⟨hax, hang, -⟩ := calculateOutputRotation_operational_large _ hg hst hnlt
  have hpost : ({ initIMU "g" "" "" with statePost := tiltQuat, startupTime := 0 } :
      IMUState).statePost = tiltQuat := rfl
  rw [hpost] at hax hang
  refine ⟨?_, ?_, by norm_num, by norm_num⟩
  · rw [hang, htheta]
    field_simp
    ring
  · rw [hax, htheta]
    have h4 : Real.pi / 2 / 2 = Real.pi / 4 := by ring
    rw [h4, Real.sin_pi_div_four]
    have ev : (![tiltQuat 1 * (Real.sqrt 2 / 2), tiltQuat 2 * (Real.sqrt 2 / 2),
        tiltQuat 3 * (Real.sqrt 2 / 2)] : Fin 3 → ℝ) = ![1 / 2, 0, 0] := by
      funext i
      fin_cases i
      · show tiltQuat 1 * (Real.sqrt 2 / 2) = 1 / 2
        rw [show tiltQuat 1 = Real.sqrt 2 / 2 from rfl]
        exact hmul
      · show tiltQuat 2 * (Real.sqrt 2 / 2) = 0
        rw [show tiltQuat 2 = (0 : ℝ) from rfl]
        ring
      · show tiltQuat 3 * (Real.sqrt 2 / 2) = 0
        rw [show tiltQuat 3 = (0 : ℝ) from rfl]
        ring
    rw [ev]
    unfold vec3norm
    have e : ((1 : ℝ) / 2) ^ 2 + ((0 : ℝ)) ^ 2 + ((0 : ℝ)) ^ 2 = (1 / 2) ^ 2 := by norm_num
    simp only [Matrix.cons_val_zero, Matrix.cons_val_one, Matrix.head_cons,
      Matrix.cons_val_two, Matrix.tail_cons]
    rw [e, Real.sqrt_sq (by norm_num : (0 : ℝ) ≤ 1 / 2)]

/-- C2 amended: after every publish outside startup the rotation angle is
returned in degrees (`theta * 180 / pi`), and the rotation axis equals the
quaternion vector part scaled by `sin(theta/2)` — the zero vector when the
angle is below epsilon — which is in general not a unit vector (its norm is
`sin(theta/2)^2` for a unit posterior quaternion). -/
theorem output_rotation_axis_angle (s : IMUState) (hg : s.gyroId ≠ "")
    (hst : ¬ 0 < s.startupTime) :
    (calculateOutputRotation s).2 = true ∧
    (outputTheta s.statePost < EPSILON →
      (calculateOutputRotation s).1.rotAxis = ![0, 0, 0] ∧
      (calculateOutputRotation s).1.rotAngle = 0) ∧
    (¬ outputTheta s.statePost < EPSILON →
      (calculateOutputRotation s).1.rotAxis =
        ![s.statePost 1 * Real.sin (outputTheta s.statePost / 2),
          s.statePost 2 * Real.sin (outputTheta s.statePost / 2),
          s.statePost 3 * Real.sin (outputTheta s.statePost / 2)] ∧
      (calculateOutputRotation s).1.rotAngle = outputTheta s.statePost * 180 / Real.pi) := by
  refine ⟨calculateOutputRotation_emit_of_operational s hg hst, ?_, ?_⟩
  · intro h
    exact ⟨(calculateOutputRotation_operational_small s hg hst h).1,
      (calculateOutputRotation_operational_small s hg hst h).2.1⟩
  · intro h
    exact ⟨(calculateOutputRotation_operational_large s hg hst h).1,
      (calculateOutputRotation_operational_large s hg hst h).2.1⟩

/-- C2 witness: a publish outside startup on the fresh identity posterior
emits. -/
theorem output_rotation_axis_angle_witness :
    ({ initIMU "g" "" "" with startupTime := 0 } : IMUState).gyroId ≠ "" ∧
    (calculateOutputRotation { initIMU "g" "" "" with startupTime := 0 }).2 = true := by
  have hg : ({ initIMU "g" "" "" with startupTime := 0 } : IMUState).gyroId ≠ "" := by
    simp [initIMU]
  have hst : ¬ (0 : ℝ) < ({ initIMU "g" "" "" with startupTime := 0 } :
      IMUState).startupTime := by norm_num
  exact ⟨hg, (output_rotation_axis_angle _ hg hst).1⟩
